import Mathlib

/-!
Verification of the chain-type filter predicates and the notebook viewer
helpers of the mmtf-pyspark repository.

The data model follows the spec's §3: a structure record exposes a list of
models; each model exposes its ordered list of polymer chains; each chain is
the ordered list of its monomer type codes (strings).  The external monomer
linkage lookup table is a pure function from monomer code to an optional
linkage category (`none` = unknown code, the permissive default of §7).
-/

/-- Linkage categories of the external monomer-linkage lookup (§3: "categories
include at least `RNA_LINKING`, `DNA_LINKING`, and others such as peptide
linkage"). -/
inductive LinkageCategory where
  | RNA_LINKING
  | DNA_LINKING
  | PEPTIDE_LINKING
  deriving DecidableEq, Repr

/-- A polymer chain: the ordered sequence of its monomer type codes. -/
abbrev PolymerChain := List String

/-- One model of a structure record: its ordered list of polymer chains
(non-polymer chains are excluded from this list, spec §4.1). -/
structure StructureModel where
  polymerChains : List PolymerChain
  deriving DecidableEq, Repr

/-- A structure record: the ordered list of its models. -/
structure StructureRecord where
  models : List StructureModel
  deriving DecidableEq, Repr

/-- The external monomer-linkage lookup table (§6): monomer code to linkage
category; `none` when the table has no entry for the code. -/
abbrev MonomerLookup := String → Option LinkageCategory

/-- Modelled from the spec: chain classification (§4.1 step 2 of
`containsPolymerChainType`, whose implementation module is not in the
repository snapshot).  "chain-type = T if and only if every monomer in the
chain maps to linkage category T via the external lookup; a chain with zero
monomers is never classified as any linkage type."  Unknown monomer codes
(`lookup m = none`) never map to any category (permissive default, §7). -/
def classifiesAs (lookup : MonomerLookup) (target : LinkageCategory)
    (chain : PolymerChain) : Bool :=
  !chain.isEmpty && chain.all (fun m => decide (lookup m = some target))

/-- Modelled from the spec: the shared predicate `containsPolymerChainType`
(§4.1 evaluation contract), whose implementation module is not in the
repository snapshot.  Step 1: zero models or zero polymer chains in model 0
give `false`.  Steps 3/4: ANY mode (`exclusive = false`) succeeds iff some
chain of model 0 classifies as the target; ALL mode (`exclusive = true`)
succeeds iff every chain of model 0 classifies as the target (with at least
one chain present, enforced by step 1). -/
def containsPolymerChainType (lookup : MonomerLookup) (target : LinkageCategory)
    (exclusive : Bool) (t : StructureRecord) : Bool :=
  match t.models with
  | [] => false
  | m0 :: _ =>
    if m0.polymerChains.isEmpty then false
    else if exclusive then m0.polymerChains.all (classifiesAs lookup target)
    else m0.polymerChains.any (classifiesAs lookup target)

/-- The matcher object: immutable configuration held by the predicate
(target linkage category and exclusive flag), spec §4.1. -/
structure ChainTypeMatcher where
  target : LinkageCategory
  exclusive : Bool
  deriving DecidableEq, Repr

/-- Evaluation contract `matches(record) -> bool` of the matcher. -/
def ChainTypeMatcher.matchesRec (lookup : MonomerLookup) (self : ChainTypeMatcher)
    (t : StructureRecord) : Bool :=
  containsPolymerChainType lookup self.target self.exclusive t

/-- Embedding of the matcher's `__call__`: the source method
(`containsRnaChain.__call__`, line 34) evaluates the stored filter on the
record and performs no assignment to `self`, so the post-call state is the
matcher unchanged. -/
def ChainTypeMatcher.call (lookup : MonomerLookup) (self : ChainTypeMatcher)
    (t : StructureRecord) : Bool × ChainTypeMatcher :=
  (self.matchesRec lookup t, self)

/-- `containsRnaChain` (src/mmtfPyspark/filters/containsRnaChain.py): the
constructor binds the shared predicate at `RNA_LINKING` with the given
`exclusive` flag; `__call__` delegates to it. -/
def containsRnaChain (lookup : MonomerLookup) (exclusive : Bool)
    (t : StructureRecord) : Bool :=
  containsPolymerChainType lookup LinkageCategory.RNA_LINKING exclusive t

/-- `containsDnaChain` (src/mmtfPyspark/src/main/filters/containsDnaChain.py):
the constructor binds the shared predicate at `DNA_LINKING` with the given
`exclusive` flag; `__call__` delegates to it. -/
def containsDnaChain (lookup : MonomerLookup) (exclusive : Bool)
    (t : StructureRecord) : Bool :=
  containsPolymerChainType lookup LinkageCategory.DNA_LINKING exclusive t

/-- A concrete lookup table used for witnesses and counterexamples: a few RNA,
DNA and peptide residue codes; every other code is unknown. -/
def demoLookup : MonomerLookup := fun m =>
  if m = "A" ∨ m = "C" ∨ m = "G" ∨ m = "U" then some LinkageCategory.RNA_LINKING
  else if m = "DA" ∨ m = "DC" ∨ m = "DG" ∨ m = "DT" then some LinkageCategory.DNA_LINKING
  else if m = "ALA" ∨ m = "GLY" then some LinkageCategory.PEPTIDE_LINKING
  else none

-- Characterization of chain classification, shared by several proofs below.
theorem classifiesAs_eq_true (lookup : MonomerLookup) (target : LinkageCategory)
    (chain : PolymerChain) :
    classifiesAs lookup target chain = true ↔
      chain ≠ [] ∧ ∀ m ∈ chain, lookup m = some target := by
  simp [classifiesAs, List.isEmpty_iff]

theorem classifiesAs_nil (lookup : MonomerLookup) (target : LinkageCategory) :
    classifiesAs lookup target [] = false := rfl

example : containsRnaChain demoLookup false ⟨[⟨[["A", "C", "G", "U"]]⟩]⟩ = true := by decide
example : containsRnaChain demoLookup true ⟨[⟨[["A", "U"], ["ALA"]]⟩]⟩ = false := by decide
example : containsDnaChain demoLookup true ⟨[⟨[["DA", "XYZ", "DT"]]⟩]⟩ = false := by decide
example : containsDnaChain demoLookup false ⟨[]⟩ = false := by decide

/-- C1 counterexample: a record whose model 0 holds a single polymer chain with
zero monomers.  That chain vacuously "has every monomer mapping to the target
category", so the claim's right-hand side holds, yet the ANY-mode matcher
returns false because a zero-monomer chain is never classified (§4.1 step 2). -/
theorem any_mode_vacuous_chain_counterexample :
    ChainTypeMatcher.matchesRec demoLookup ⟨LinkageCategory.RNA_LINKING, false⟩
        ⟨[⟨[([] : PolymerChain)]⟩]⟩ = false ∧
    ∃ c ∈ [([] : PolymerChain)], ∀ m ∈ c, demoLookup m = some LinkageCategory.RNA_LINKING := by
  refine ⟨by decide, [], ?_, ?_⟩ <;> simp

/-- C1 (amended): in ANY mode `matches(r)` is true iff model 0 exists and at
least one of its polymer chains is nonempty and has every monomer mapping to
the target linkage category via the external lookup. -/
theorem any_mode_matches_iff (lookup : MonomerLookup) (target : LinkageCategory)
    (r : StructureRecord) :
    ChainTypeMatcher.matchesRec lookup ⟨target, false⟩ r = true ↔
      ∃ m0, r.models.head? = some m0 ∧
        ∃ c ∈ m0.polymerChains, c ≠ [] ∧ ∀ m ∈ c, lookup m = some target := by
  obtain ⟨models⟩ := r
  cases models with
  | nil => simp [ChainTypeMatcher.matchesRec, containsPolymerChainType]
  | cons m0 rest =>
    obtain ⟨chains⟩ := m0
    cases chains with
    | nil => simp [ChainTypeMatcher.matchesRec, containsPolymerChainType]
    | cons c cs =>
      simp [ChainTypeMatcher.matchesRec, containsPolymerChainType,
        List.any_eq_true, classifiesAs_eq_true]

/-- C1 amended witness: a one-chain RNA record passes the ANY-mode RNA matcher,
via the amended characterization. -/
theorem any_mode_matches_iff_witness :
    ChainTypeMatcher.matchesRec demoLookup ⟨LinkageCategory.RNA_LINKING, false⟩
        ⟨[⟨[["A", "C", "G", "U"]]⟩]⟩ = true :=
  (any_mode_matches_iff demoLookup LinkageCategory.RNA_LINKING
      ⟨[⟨[["A", "C", "G", "U"]]⟩]⟩).mpr
    ⟨⟨[["A", "C", "G", "U"]]⟩, rfl, ["A", "C", "G", "U"], by simp, by simp,
      by decide⟩

/-- C2 counterexample: model 0 holds exactly one polymer chain and it has zero
monomers, so every polymer chain of model 0 vacuously "has every monomer
mapping to the target category" and the chain list is nonempty, yet the
ALL-mode matcher returns false. -/
theorem all_mode_vacuous_chain_counterexample :
    ChainTypeMatcher.matchesRec demoLookup ⟨LinkageCategory.RNA_LINKING, true⟩
        ⟨[⟨[([] : PolymerChain)]⟩]⟩ = false ∧
    [([] : PolymerChain)] ≠ [] ∧
    ∀ c ∈ [([] : PolymerChain)], ∀ m ∈ c, demoLookup m = some LinkageCategory.RNA_LINKING := by
  refine ⟨by decide, by simp, ?_⟩
  simp

/-- C2 (amended): in ALL mode `matches(r)` is true iff model 0 exists, has at
least one polymer chain, and every one of its polymer chains is nonempty with
every monomer mapping to the target linkage category via the external lookup. -/
theorem all_mode_matches_iff (lookup : MonomerLookup) (target : LinkageCategory)
    (r : StructureRecord) :
    ChainTypeMatcher.matchesRec lookup ⟨target, true⟩ r = true ↔
      ∃ m0, r.models.head? = some m0 ∧ m0.polymerChains ≠ [] ∧
        ∀ c ∈ m0.polymerChains, c ≠ [] ∧ ∀ m ∈ c, lookup m = some target := by
  obtain ⟨models⟩ := r
  cases models with
  | nil => simp [ChainTypeMatcher.matchesRec, containsPolymerChainType]
  | cons m0 rest =>
    obtain ⟨chains⟩ := m0
    cases chains with
    | nil => simp [ChainTypeMatcher.matchesRec, containsPolymerChainType]
    | cons c cs =>
      simp [ChainTypeMatcher.matchesRec, containsPolymerChainType,
        List.all_eq_true, classifiesAs_eq_true]

/-- C2 amended witness. -/
theorem all_mode_matches_iff_witness :
    ChainTypeMatcher.matchesRec demoLookup ⟨LinkageCategory.RNA_LINKING, true⟩
        ⟨[⟨[["A", "U"]]⟩]⟩ = true :=
  (all_mode_matches_iff demoLookup LinkageCategory.RNA_LINKING
      ⟨[⟨[["A", "U"]]⟩]⟩).mpr
    ⟨⟨[["A", "U"]]⟩, rfl, by simp, by
      intro c hc
      simp only [List.mem_singleton] at hc
      subst hc
      exact ⟨by simp, by decide⟩⟩

/-- C3: a record with zero models, or whose first model has zero polymer
chains, fails the matcher in both ANY mode and ALL mode: the empty-all-true
convention is overridden to false (§4.1 step 1). -/
theorem matches_false_of_no_chains (lookup : MonomerLookup) (target : LinkageCategory)
    (exclusive : Bool) (rest : List StructureModel) :
    ChainTypeMatcher.matchesRec lookup ⟨target, exclusive⟩ ⟨[]⟩ = false ∧
    ChainTypeMatcher.matchesRec lookup ⟨target, exclusive⟩ ⟨⟨[]⟩ :: rest⟩ = false := by
  constructor
  · rfl
  · cases exclusive <;> rfl

/-- C4: the result of `matches` depends only on model 0: two records sharing
the same first model give the same result whatever the later models are, in
either mode; in particular appending or modifying models after model 0 never
changes the result. -/
theorem matches_ignores_later_models (lookup : MonomerLookup) (target : LinkageCategory)
    (exclusive : Bool) (m0 : StructureModel) (rest rest' : List StructureModel) :
    ChainTypeMatcher.matchesRec lookup ⟨target, exclusive⟩ ⟨m0 :: rest⟩ =
      ChainTypeMatcher.matchesRec lookup ⟨target, exclusive⟩ ⟨m0 :: rest'⟩ := rfl

/-- C5: the RNA filter and the DNA filter are the same parameterized predicate
with different bound linkage constants: for every lookup table, flag and
record, `containsRnaChain` agrees with `containsPolymerChainType` bound at
`RNA_LINKING` and `containsDnaChain` with it bound at `DNA_LINKING`. -/
theorem rna_dna_filters_delegate (lookup : MonomerLookup) (e : Bool)
    (t : StructureRecord) :
    containsRnaChain lookup e t =
        containsPolymerChainType lookup LinkageCategory.RNA_LINKING e t ∧
    containsDnaChain lookup e t =
        containsPolymerChainType lookup LinkageCategory.DNA_LINKING e t :=
  ⟨rfl, rfl⟩

/-- C6: a nonempty chain classifies as type T iff every one of its monomers
maps to linkage category T via the external lookup, and a chain with zero
monomers is never classified as any linkage type. -/
theorem classifies_iff_all_monomers_map (lookup : MonomerLookup)
    (target : LinkageCategory) (chain : PolymerChain) :
    (chain ≠ [] →
      (classifiesAs lookup target chain = true ↔ ∀ m ∈ chain, lookup m = some target)) ∧
    classifiesAs lookup target [] = false := by
  refine ⟨fun h => ?_, rfl⟩
  rw [classifiesAs_eq_true]
  exact and_iff_right h

/-- C6 witness: the characterization evaluated on a concrete nonempty RNA
chain. -/
theorem classifies_iff_all_monomers_map_witness :
    classifiesAs demoLookup LinkageCategory.RNA_LINKING ["A", "U"] = true ∧
    classifiesAs demoLookup LinkageCategory.RNA_LINKING [] = false := by
  have h := classifies_iff_all_monomers_map demoLookup LinkageCategory.RNA_LINKING ["A", "U"]
  exact ⟨(h.1 (by simp)).mpr (by decide), h.2⟩

/-- C7: in the default permissive mode, a chain holding a monomer code absent
from the lookup table never classifies as the target type; any ALL-mode record
whose model 0 contains such a chain fails, and in ANY mode the chain is simply
skipped: the result equals the ANY scan of the remaining chains. -/
theorem unknown_monomer_permissive (lookup : MonomerLookup) (target : LinkageCategory)
    (c : PolymerChain) (m : String) (hm : m ∈ c) (hu : lookup m = none) :
    classifiesAs lookup target c = false ∧
    (∀ pre post : List PolymerChain, ∀ tail : List StructureModel,
      ChainTypeMatcher.matchesRec lookup ⟨target, true⟩
        ⟨⟨pre ++ c :: post⟩ :: tail⟩ = false) ∧
    (∀ pre post : List PolymerChain, ∀ tail : List StructureModel,
      ChainTypeMatcher.matchesRec lookup ⟨target, false⟩
        ⟨⟨pre ++ c :: post⟩ :: tail⟩ =
        (pre ++ post).any (classifiesAs lookup target)) := by
  have hc : classifiesAs lookup target c = false := by
    rw [Bool.eq_false_iff]
    intro hcl
    have := ((classifiesAs_eq_true lookup target c).1 hcl).2 m hm
    rw [hu] at this
    exact Option.noConfusion this
  refine ⟨hc, fun pre post tail => ?_, fun pre post tail => ?_⟩
  · simp [ChainTypeMatcher.matchesRec, containsPolymerChainType, hc]
  · simp [ChainTypeMatcher.matchesRec, containsPolymerChainType, hc]

/-- C7 witness: a chain mixing DNA residues with the unrecognized code "XYZ"
fails to classify as DNA, makes an ALL-mode record fail, and is skipped by the
ANY scan. -/
theorem unknown_monomer_permissive_witness :
    classifiesAs demoLookup LinkageCategory.DNA_LINKING ["DA", "XYZ", "DT"] = false ∧
    ChainTypeMatcher.matchesRec demoLookup ⟨LinkageCategory.DNA_LINKING, true⟩
        ⟨[⟨[["DA", "XYZ", "DT"]]⟩]⟩ = false ∧
    ChainTypeMatcher.matchesRec demoLookup ⟨LinkageCategory.DNA_LINKING, false⟩
        ⟨[⟨[["DA", "XYZ", "DT"], ["DG"]]⟩]⟩ =
      [["DG"]].any (classifiesAs demoLookup LinkageCategory.DNA_LINKING) := by
  have h := unknown_monomer_permissive demoLookup LinkageCategory.DNA_LINKING
    ["DA", "XYZ", "DT"] "XYZ" (by decide) (by decide)
  exact ⟨h.1, h.2.1 [] [] [], h.2.2 [] [["DG"]] []⟩

/-- C8: evaluation is deterministic and mutation-free: calling the matcher
twice in succession on the same record yields the same boolean both times, and
the matcher state after the two calls is the original matcher (its stored
target type and mode unchanged). -/
theorem matches_pure_and_idempotent (lookup : MonomerLookup)
    (self : ChainTypeMatcher) (t : StructureRecord) :
    (((self.call lookup t).2).call lookup t).1 = (self.call lookup t).1 ∧
    (((self.call lookup t).2).call lookup t).2 = self :=
  ⟨rfl, rfl⟩

/-!
Embedding of the notebook viewer helpers (src/mmtfPyspark/structureViewer.py).
The external widget and 3D-rendering calls are modelled by the data each
helper marshals to them: the per-index display configuration built by the
`view3d` closure and the bounds of the index slider handed to `interact`.
-/

/-- The `pdbIds` argument of the viewer helpers: Python accepts either a bare
string or a list of strings. -/
inductive PdbIdsArg where
  | str (s : String)
  | list (l : List String)
  deriving DecidableEq, Repr

/-- The string-to-list coercion at the top of `simple_structure_viewer`
(lines 29-30) and `interaction_structure_viewer` (lines 63-64): a bare string
becomes a one-element list; a list is kept as is. -/
def coercePdbIds : PdbIdsArg → List String
  | PdbIdsArg.str s => [s]
  | PdbIdsArg.list l => l

/-- Python `len` of a string-or-list value. -/
def PdbIdsArg.pyLen : PdbIdsArg → Nat
  | PdbIdsArg.str s => s.length
  | PdbIdsArg.list l => l.length

/-- What one invocation of `simple_structure_viewer`'s inner `view3d(i)`
marshals to the display and the py3Dmol widget: the printed header, the query
string, and the style/color setting (lines 41-46). -/
structure View3dOutput where
  printed : String
  query : String
  style : String
  color : String
  deriving DecidableEq, Repr

/-- The inner `view3d` closure of `simple_structure_viewer`. -/
def simple_view3d (pdbIds : List String) (style color : String) (i : Nat) :
    View3dOutput :=
  { printed := "PdbID: " ++ pdbIds.getD i "" ++ ", Style: " ++ style
    query := "pdb:" ++ pdbIds.getD i ""
    style := style
    color := color }

/-- The value handed to `interact`: the `view3d` closure and the inclusive
bounds of the index slider `i=(0, len(pdbIds)-1)`. -/
structure InteractViewer where
  view3d : Nat → View3dOutput
  sliderLo : Int
  sliderHi : Int

/-- `simple_structure_viewer` (lines 18-48): coerce a bare-string `pdbIds` to
a one-element list, then hand `interact` the `view3d` closure over the list
and the slider bounds `(0, len(pdbIds)-1)`. -/
def simple_structure_viewer (pdbIds : PdbIdsArg) (style color : String) :
    InteractViewer :=
  let ids := coercePdbIds pdbIds
  { view3d := simple_view3d ids style color
    sliderLo := 0
    sliderHi := (ids.length : Int) - 1 }

/-- What one invocation of `interaction_structure_viewer`'s inner `view3d(i)`
marshals out (lines 75-84): as `simple_structure_viewer`, plus the gray-sphere
highlight applied when `interacting_atom != "None"`. -/
structure InteractionView3dOutput where
  printed : String
  query : String
  style : String
  color : String
  highlightedAtom : Option String
  deriving DecidableEq, Repr

/-- The inner `view3d` closure of `interaction_structure_viewer`. -/
def interaction_view3d (pdbIds : List String)
    (interacting_atom style color : String) (i : Nat) : InteractionView3dOutput :=
  { printed := "PdbID: " ++ pdbIds.getD i "" ++ ", Interactions: " ++
      interacting_atom ++ ", Style: " ++ style
    query := "pdb:" ++ pdbIds.getD i ""
    style := style
    color := color
    highlightedAtom := if interacting_atom ≠ "None" then some interacting_atom else none }

/-- The value `interaction_structure_viewer` hands to `interact`. -/
structure InteractionViewer where
  view3d : Nat → InteractionView3dOutput
  sliderLo : Int
  sliderHi : Int

/-- `interaction_structure_viewer` (lines 51-86): same coercion and slider
construction as `simple_structure_viewer`, with the highlight option. -/
def interaction_structure_viewer (pdbIds : PdbIdsArg)
    (interacting_atom style color : String) : InteractionViewer :=
  let ids := coercePdbIds pdbIds
  { view3d := interaction_view3d ids interacting_atom style color
    sliderLo := 0
    sliderHi := (ids.length : Int) - 1 }

/-- The state assembled by `group_neighbor_viewer` before its `view3d` closure
is created: the (possibly string) pdbIds, the groups, the per-structure chain
list, and the cutoff distance. -/
structure GroupNeighborViewer where
  pdbIds : PdbIdsArg
  groups : List Int
  chains : List String
  distance : Rat
  deriving DecidableEq, Repr

/-- `group_neighbor_viewer` (lines 90-139): `None` pdbIds or groups raise
`ValueError`, then a length mismatch raises `ValueError`; both checks precede
the construction of any viewer state.  Line 111 guards the string-to-list
coercion with `type(pdbIds) == str and groups == str`; the second conjunct
compares the `groups` list with the `str` type object and is false for every
value in the modelled input space, so that branch is unreachable and `pdbIds`
is kept as given.  With `chains` equal to `None`, every structure gets the
default chain "A" (`chains = ['A'] * len(pdbIds)`). -/
def group_neighbor_viewer (pdbIds : Option PdbIdsArg) (groups : Option (List Int))
    (chains : Option (List String)) (distance : Rat) :
    Except String GroupNeighborViewer :=
  match pdbIds, groups with
  | none, _ => Except.error "PdbIds and groups need to be specified"
  | _, none => Except.error "PdbIds and groups need to be specified"
  | some ps, some gs =>
    if ps.pyLen ≠ gs.length then
      Except.error "Number of structures should match with number of groups"
    else
      let cs := match chains with
        | none => List.replicate ps.pyLen "A"
        | some cs => cs
      Except.ok { pdbIds := ps, groups := gs, chains := cs, distance := distance }

/-- `true` exactly when the call raised `ValueError` (the `Except.error`
outcome of the embedding). -/
def raisesValueError (e : Except String GroupNeighborViewer) : Bool :=
  match e with
  | Except.error _ => true
  | Except.ok _ => false

/-- C9: a bare string argument is coerced to a one-element list before the
slider over `(0, len-1)` is built, so `simple_structure_viewer` on a string
behaves identically to `simple_structure_viewer` on the singleton list, and
`interaction_structure_viewer` applies the same coercion. -/
theorem string_arg_coerced_to_singleton (s style color interacting_atom : String) :
    simple_structure_viewer (PdbIdsArg.str s) style color =
      simple_structure_viewer (PdbIdsArg.list [s]) style color ∧
    interaction_structure_viewer (PdbIdsArg.str s) interacting_atom style color =
      interaction_structure_viewer (PdbIdsArg.list [s]) interacting_atom style color :=
  ⟨rfl, rfl⟩

/-- C10: `group_neighbor_viewer` raises `ValueError` iff `pdbIds` is `None`,
`groups` is `None`, or their lengths differ; these checks precede the creation
of any viewer state (the error outcome carries none), and when they pass with
`chains` equal to `None` every structure is assigned the default chain "A". -/
theorem group_neighbor_viewer_valueerror_iff (pd : Option PdbIdsArg)
    (gr : Option (List Int)) (ch : Option (List String)) (d : Rat) :
    (raisesValueError (group_neighbor_viewer pd gr ch d) = true ↔
      pd = none ∨ gr = none ∨
        ∃ ps gs, pd = some ps ∧ gr = some gs ∧ ps.pyLen ≠ gs.length) ∧
    (∀ ps gs v, pd = some ps → gr = some gs → ch = none →
      group_neighbor_viewer pd gr ch d = Except.ok v →
      v.chains = List.replicate ps.pyLen "A") := by
  constructor
  · match pd, gr with
    | none, _ => simp [group_neighbor_viewer, raisesValueError]
    | some ps, none => simp [group_neighbor_viewer, raisesValueError]
    | some ps, some gs =>
      by_cases h : ps.pyLen = gs.length
      · simp [group_neighbor_viewer, raisesValueError, h]
      · simp [group_neighbor_viewer, raisesValueError, h]
  · rintro ps gs v rfl rfl rfl hok
    by_cases h : ps.pyLen = gs.length
    · simp [group_neighbor_viewer, h] at hok
      rw [← hok, h]
    · simp [group_neighbor_viewer, h] at hok

/-- C10 witness: a one-structure/two-groups call raises `ValueError`, and a
matching call with `chains` omitted assigns the default chain "A". -/
theorem group_neighbor_viewer_valueerror_iff_witness :
    raisesValueError (group_neighbor_viewer (some (PdbIdsArg.list ["4HHB"]))
        (some ([1, 2] : List Int)) none 3) = true ∧
    ({ pdbIds := PdbIdsArg.list ["4HHB"], groups := [5], chains := ["A"],
        distance := 3 } : GroupNeighborViewer).chains = List.replicate 1 "A" := by
  constructor
  · exact (group_neighbor_viewer_valueerror_iff (some (PdbIdsArg.list ["4HHB"]))
      (some [1, 2]) none 3).1.mpr (Or.inr (Or.inr ⟨_, _, rfl, rfl, by decide⟩))
  · exact (group_neighbor_viewer_valueerror_iff (some (PdbIdsArg.list ["4HHB"]))
      (some [5]) none 3).2 (PdbIdsArg.list ["4HHB"]) [5] _ rfl rfl rfl rfl
